import Mathlib

/-!
Verification of the Qianfan language-model adapter (`dsp/modules/qianfan.py`).

We shallowly embed the adapter: Python values become an inductive `Value`,
keyword-argument dictionaries become association lists with last-binding-wins
lookup (so `{**a, **b}` is list append), the vendor client is an oracle
function, and exceptions are modelled with `Except`. State (the history list)
is threaded explicitly; a call returns its `Except` result together with the
post-call adapter state, so mutations that happen before an exception are
visible, exactly as in Python.
-/

/-- A Python value as used by the adapter: strings, numbers (modelled as
rationals), booleans, `None`, lists and dicts (association lists). -/
inductive Value where
  | str (s : String)
  | num (q : ℚ)
  | bool (b : Bool)
  | none
  | list (xs : List Value)
  | obj (fields : List (String × Value))

/-- Python exceptions the adapter can surface. -/
inductive PyError where
  | keyError (k : String)
  | attributeError (attr : String)
  | typeError (msg : String)
  | assertionError (msg : String)
  | apiError (msg : String)
  deriving DecidableEq

/-- The two vendor-client variants selected at construction time. -/
inductive ModelType where
  | chat
  | completion
  deriving DecidableEq

/-- Lookup in an association list where the LAST binding for a key wins;
this matches the lookup semantics of a Python dict built by successive
insertions and `{**a, **b}` merges (modelled as list append). -/
def alistGet : List (String × Value) → String → Option Value
  | [], _ => Option.none
  | (k, v) :: rest, key =>
    (alistGet rest key).or (if k = key then some v else Option.none)

/-- Python truthiness for a `Value` (used by `if usage_data:`): `None`,
`False`, zero, and empty strings/lists/dicts are falsy. -/
def truthy : Value → Bool
  | .str s => !s.isEmpty
  | .num q => if q = 0 then false else true
  | .bool b => b
  | .none => false
  | .list xs => !xs.isEmpty
  | .obj fs => !fs.isEmpty

/-- Python `d.get(k)`: the value, or `None` when the key is absent; calling
`.get` on a value that is not a dict raises an AttributeError. -/
def dictGet : Value → String → Except PyError Value
  | .obj fs, k => .ok ((alistGet fs k).getD Value.none)
  | _, _ => .error (.attributeError "get")

/-- Python `d[k]`: KeyError when the key is absent from the dict;
subscripting a non-dict with a string key raises a TypeError. -/
def getItem : Value → String → Except PyError Value
  | .obj fs, k =>
    match alistGet fs k with
    | some v => .ok v
    | Option.none => .error (.keyError k)
  | _, k => .error (.typeError k)

/-- One entry of the adapter's history list (the dict literal appended by
`basic_request`). -/
structure CallRecord where
  prompt : String
  response : Value
  kwargs : List (String × Value)
  raw_kwargs : List (String × Value)

/-- Adapter state: interaction mode, construction-time default kwargs, and
the growable call history. The vendor client chosen by `model_type` is
passed to the request operations as an oracle. -/
structure QianfanLM where
  model_type : ModelType
  kwargs : List (String × Value)
  history : List CallRecord

/-- `QianfanLM.__init__`: seeds defaults `temperature=0.7, top_p=1,
stream=False`, overridden by caller kwargs, then injects the model
identifier, the endpoint when given, and retry/timeout/backoff only when
explicitly provided (omitted parameters inject no key). -/
def QianfanLM.init (model : String) (endpoint : Option String)
    (model_type : ModelType) (retry_count : Option Int)
    (request_timeout : Option ℚ) (backoff_factor : Option ℚ)
    (kwargs : List (String × Value)) : QianfanLM :=
  let base := [("temperature", Value.num (7 / 10)), ("top_p", Value.num 1),
    ("stream", Value.bool false)] ++ kwargs
  let k1 := base ++ [("model", Value.str model)]
  let k2 := match endpoint with
    | some e => k1 ++ [("endpoint", Value.str e)]
    | Option.none => k1
  let k3 := match retry_count with
    | some r => k2 ++ [("retry_count", Value.num (r : ℚ))]
    | Option.none => k2
  let k4 := match request_timeout with
    | some t => k3 ++ [("request_timeout", Value.num t)]
    | Option.none => k3
  let k5 := match backoff_factor with
    | some b => k4 ++ [("backoff_factor", Value.num b)]
    | Option.none => k4
  { model_type := model_type, kwargs := k5, history := [] }

/-- The vendor client oracle (`self.client.do(**kwargs)`). -/
abbrev Client : Type := List (String × Value) → Except PyError Value

/-- The single user-role message list chat mode sends. -/
def wrapMessages (prompt : String) : Value :=
  Value.list [Value.obj [("role", Value.str "user"), ("content", Value.str prompt)]]

/-- The merged options `basic_request` passes to the vendor client:
`{**self.kwargs, **kwargs}` followed by the mode-determined prompt
injection, assigned last (`kwargs["messages"] = ...` in chat mode,
`kwargs["prompt"] = prompt` in completion mode). -/
def effectiveKwargs (lm : QianfanLM) (prompt : String)
    (kwargs : List (String × Value)) : List (String × Value) :=
  match lm.model_type with
  | .chat => (lm.kwargs ++ kwargs) ++ [("messages", wrapMessages prompt)]
  | .completion => (lm.kwargs ++ kwargs) ++ [("prompt", Value.str prompt)]

/-- `QianfanLM.basic_request`: merge the options, inject the prompt, call
the vendor client, and on success append one `CallRecord` before returning
the raw response. A vendor error propagates and, since the append happens
only after the client returns, leaves the state unchanged. -/
def basic_request (client : Client) (lm : QianfanLM) (prompt : String)
    (kwargs : List (String × Value)) : Except PyError Value × QianfanLM :=
  match client (effectiveKwargs lm prompt kwargs) with
  | .error e => (.error e, lm)
  | .ok response =>
    (.ok response,
      { lm with history := lm.history ++
          [{ prompt := prompt, response := response,
             kwargs := effectiveKwargs lm prompt kwargs, raw_kwargs := kwargs }] })

/-- `QianfanLM.request`: direct passthrough to `basic_request`. -/
def request (client : Client) (lm : QianfanLM) (prompt : String)
    (kwargs : List (String × Value)) : Except PyError Value × QianfanLM :=
  basic_request client lm prompt kwargs

/-- `QianfanLM.log_usage`: reads `response.get("usage")`; when truthy, emits
exactly one diagnostic record containing `usage.get("total_tokens")` (which
is `None` when that key is absent). Returns the emitted records. -/
def log_usage (response : Value) : Except PyError (List Value) :=
  match dictGet response "usage" with
  | .error e => .error e
  | .ok usage_data =>
    if truthy usage_data then
      match dictGet usage_data "total_tokens" with
      | .error e => .error e
      | .ok total_tokens => .ok [total_tokens]
    else .ok []

/-- The statements of `__call__` after the request returned: run
`log_usage(response)`, then evaluate `[response["body"]["result"]]`; the
first exception raised propagates. On success the returned completions are
paired with the emitted log records. -/
def callAfterRequest (response : Value) :
    Except PyError (List Value × List Value) :=
  match log_usage response with
  | .error e => .error e
  | .ok logs =>
    match getItem response "body" with
    | .error e => .error e
    | .ok body =>
      match getItem body "result" with
      | .error e => .error e
      | .ok result => .ok ([result], logs)

/-- `QianfanLM.__call__`: asserts `only_completed` and then `not
return_sorted`, delegates to `request`, logs usage, and returns
`[response["body"]["result"]]` paired with the emitted log records; the
adapter state after the call is returned alongside. -/
def call (client : Client) (lm : QianfanLM) (prompt : String)
    (only_completed : Bool) (return_sorted : Bool)
    (kwargs : List (String × Value)) :
    Except PyError (List Value × List Value) × QianfanLM :=
  if !only_completed then
    (.error (.assertionError "Qianfan does not support incomplete responses"), lm)
  else if return_sorted then
    (.error (.assertionError "Sorting not implemented for Qianfan"), lm)
  else
    match request client lm prompt kwargs with
    | (.error e, lm1) => (.error e, lm1)
    | (.ok response, lm1) => (callAfterRequest response, lm1)

/-! ### Concrete fixtures used by witnesses -/

/-- A well-formed vendor response: `{"body": {"result": "ok"},
"usage": {"total_tokens": 42}}`. -/
def okResponse : Value :=
  Value.obj [("body", Value.obj [("result", Value.str "ok")]),
    ("usage", Value.obj [("total_tokens", Value.num 42)])]

/-- A client that always returns `okResponse`. -/
def okClient : Client := fun _ => .ok okResponse

/-- A client that always raises a vendor-side error. -/
def errClient : Client := fun _ => .error (.apiError "boom")

/-- A client returning an empty response object. -/
def emptyClient : Client := fun _ => .ok (Value.obj [])

/-- An adapter constructed in chat mode with all optional parameters
omitted. -/
def demoLM : QianfanLM :=
  QianfanLM.init "ERNIE-4.0-Turbo-8K" Option.none ModelType.chat
    Option.none Option.none Option.none []

/-! ### Helper lemmas -/

/-- Lookup distributes over append with the later list taking precedence,
exactly like a Python `{**a, **b}` merge. -/
theorem alistGet_append (a b : List (String × Value)) (k : String) :
    alistGet (a ++ b) k = (alistGet b k).or (alistGet a k) := by
  induction a with
  | nil => simp [alistGet]
  | cons hd tl ih =>
    cases hd with
    | mk k0 v0 =>
      simp only [List.cons_append, alistGet, List.append_eq, ih, Option.or_assoc]

/-- Lookup in a one-binding list. -/
theorem alistGet_singleton (k0 : String) (v0 : Value) (k : String) :
    alistGet [(k0, v0)] k = if k0 = k then some v0 else Option.none := by
  simp [alistGet]

/-- In chat mode the effective options are the merge followed by the forced
"messages" binding. -/
theorem effectiveKwargs_chat (lm : QianfanLM) (prompt : String)
    (kwargs : List (String × Value)) (hmt : lm.model_type = .chat) :
    effectiveKwargs lm prompt kwargs =
      (lm.kwargs ++ kwargs) ++ [("messages", wrapMessages prompt)] := by
  unfold effectiveKwargs
  rw [hmt]

/-- In completion mode the effective options are the merge followed by the
forced "prompt" binding. -/
theorem effectiveKwargs_completion (lm : QianfanLM) (prompt : String)
    (kwargs : List (String × Value)) (hmt : lm.model_type = .completion) :
    effectiveKwargs lm prompt kwargs =
      (lm.kwargs ++ kwargs) ++ [("prompt", Value.str prompt)] := by
  unfold effectiveKwargs
  rw [hmt]

/-- Characterization of `basic_request` when the vendor client succeeds. -/
theorem basic_request_ok (client : Client) (lm : QianfanLM) (prompt : String)
    (kwargs : List (String × Value)) (response : Value)
    (hc : client (effectiveKwargs lm prompt kwargs) = .ok response) :
    basic_request client lm prompt kwargs =
      (.ok response,
        { lm with history := lm.history ++
            [{ prompt := prompt, response := response,
               kwargs := effectiveKwargs lm prompt kwargs, raw_kwargs := kwargs }] }) := by
  unfold basic_request
  rw [hc]

/-- Characterization of `basic_request` when the vendor client raises. -/
theorem basic_request_err (client : Client) (lm : QianfanLM) (prompt : String)
    (kwargs : List (String × Value)) (e : PyError)
    (hc : client (effectiveKwargs lm prompt kwargs) = .error e) :
    basic_request client lm prompt kwargs = (.error e, lm) := by
  unfold basic_request
  rw [hc]

/-- The constructed adapter keeps the requested interaction mode. -/
theorem init_model_type (model : String) (endpoint : Option String)
    (mt : ModelType) (rc : Option Int) (rt bf : Option ℚ)
    (extra : List (String × Value)) :
    (QianfanLM.init model endpoint mt rc rt bf extra).model_type = mt := rfl

/-- C2: a returning invocation of `basic_request` appends exactly one
`CallRecord` — at the end of the history, hence in call order — and that
record's prompt field equals the prompt argument. -/
theorem basic_request_appends_one_record
    (client : Client) (lm : QianfanLM) (prompt : String)
    (kwargs : List (String × Value)) (response : Value) (lm' : QianfanLM)
    (h : basic_request client lm prompt kwargs = (.ok response, lm')) :
    lm'.history = lm.history ++
      [{ prompt := prompt, response := response,
         kwargs := effectiveKwargs lm prompt kwargs, raw_kwargs := kwargs }] := by
  cases hc : client (effectiveKwargs lm prompt kwargs) with
  | error e =>
    rw [basic_request_err client lm prompt kwargs e hc] at h
    exact absurd (congrArg Prod.fst h) (by simp)
  | ok r =>
    rw [basic_request_ok client lm prompt kwargs r hc] at h
    injection h with h1 h2
    injection h1 with hr
    subst hr
    subst h2
    rfl

/-- C2 witness at a concrete client, adapter state, prompt and overrides. -/
theorem basic_request_appends_one_record_witness :
    (basic_request okClient demoLM "hello" []).2.history = demoLM.history ++
      [{ prompt := "hello", response := okResponse,
         kwargs := effectiveKwargs demoLM "hello" [], raw_kwargs := [] }] :=
  basic_request_appends_one_record okClient demoLM "hello" [] okResponse
    (basic_request okClient demoLM "hello" []).2 rfl

/-- C3: `__call__` with `only_completed = false` always fails with the
incomplete-responses assertion, and with `return_sorted = true` it always
fails with an assertion error, whatever the other arguments; in both cases
the result is the same for every vendor client and the state is returned
unchanged, so no vendor request is issued. -/
theorem call_asserts_preconditions :
    (∀ (client : Client) (lm : QianfanLM) (prompt : String) (rs : Bool)
        (kwargs : List (String × Value)),
      call client lm prompt false rs kwargs =
        (.error (.assertionError "Qianfan does not support incomplete responses"), lm)) ∧
    (∀ (client : Client) (lm : QianfanLM) (prompt : String) (oc : Bool)
        (kwargs : List (String × Value)),
      ∃ msg, call client lm prompt oc true kwargs =
        (.error (.assertionError msg), lm)) := by
  refine ⟨fun client lm prompt rs kwargs => rfl, fun client lm prompt oc kwargs => ?_⟩
  cases oc with
  | false => exact ⟨"Qianfan does not support incomplete responses", rfl⟩
  | true => exact ⟨"Sorting not implemented for Qianfan", rfl⟩

/-- C8: `request` is extensionally equal to `basic_request`: the same value
and the same state change for every client, state, prompt and overrides. -/
theorem request_eq_basic_request (client : Client) (lm : QianfanLM)
    (prompt : String) (kwargs : List (String × Value)) :
    request client lm prompt kwargs = basic_request client lm prompt kwargs := rfl

/-- C9: when the vendor client raises, `basic_request` propagates that very
error and returns the state unchanged: no `CallRecord` is appended, because
the append happens only after the client returns. -/
theorem basic_request_error_keeps_state
    (client : Client) (lm : QianfanLM) (prompt : String)
    (kwargs : List (String × Value)) (e : PyError)
    (hc : client (effectiveKwargs lm prompt kwargs) = .error e) :
    basic_request client lm prompt kwargs = (.error e, lm) :=
  basic_request_err client lm prompt kwargs e hc

/-- C9 witness at a concrete failing client. -/
theorem basic_request_error_keeps_state_witness :
    basic_request errClient demoLM "hello" [] = (.error (.apiError "boom"), demoLM) :=
  basic_request_error_keeps_state errClient demoLM "hello" [] (.apiError "boom") rfl

/-- `d[k]` on a dict that has the key. -/
theorem getItem_some (fs : List (String × Value)) (k : String) (v : Value)
    (h : alistGet fs k = some v) : getItem (Value.obj fs) k = .ok v := by
  show (match alistGet fs k with
        | some w => (Except.ok w : Except PyError Value)
        | Option.none => Except.error (.keyError k)) = Except.ok v
  rw [h]

/-- `d[k]` on a dict that lacks the key raises `KeyError k`. -/
theorem getItem_none (fs : List (String × Value)) (k : String)
    (h : alistGet fs k = Option.none) :
    getItem (Value.obj fs) k = .error (.keyError k) := by
  show (match alistGet fs k with
        | some w => (Except.ok w : Except PyError Value)
        | Option.none => Except.error (.keyError k)) = Except.error (.keyError k)
  rw [h]

/-- `d.get(k)` on a dict returns the binding, defaulting to `None`. -/
theorem dictGet_obj (fs : List (String × Value)) (k : String) :
    dictGet (Value.obj fs) k = .ok ((alistGet fs k).getD Value.none) := rfl

/-- Unfolding `log_usage` once the usage lookup is known. -/
theorem log_usage_spec (response usage : Value)
    (hu : dictGet response "usage" = .ok usage) :
    log_usage response =
      if truthy usage then
        match dictGet usage "total_tokens" with
        | .error e => .error e
        | .ok total_tokens => .ok [total_tokens]
      else .ok [] := by
  unfold log_usage
  rw [hu]

/-- Unfolding the success path of `__call__` past the vendor request. -/
theorem call_unfold_ok (client : Client) (lm : QianfanLM) (prompt : String)
    (kwargs : List (String × Value)) (response : Value)
    (hresp : client (effectiveKwargs lm prompt kwargs) = .ok response) :
    (call client lm prompt true false kwargs).1 = callAfterRequest response := by
  unfold call request
  rw [basic_request_ok client lm prompt kwargs response hresp]
  rfl

/-- `callAfterRequest` once logging is known to succeed. -/
theorem callAfterRequest_spec (response : Value) (logs : List Value)
    (hlog : log_usage response = .ok logs) :
    callAfterRequest response =
      match getItem response "body" with
      | .error e => .error e
      | .ok body =>
        match getItem body "result" with
        | .error e => .error e
        | .ok result => .ok ([result], logs) := by
  unfold callAfterRequest
  rw [hlog]

/-- `callAfterRequest` once logging and the body lookup are known. -/
theorem callAfterRequest_spec2 (response body : Value) (logs : List Value)
    (hlog : log_usage response = .ok logs)
    (hbody : getItem response "body" = .ok body) :
    callAfterRequest response =
      match getItem body "result" with
      | .error e => .error e
      | .ok result => .ok ([result], logs) := by
  rw [callAfterRequest_spec response logs hlog, hbody]

/-- C1: when the vendor client returns a response whose `body.result` is the
string `s` and whose usage mapping carries `total_tokens`, `__call__` with
`only_completed = true` and `return_sorted = false` returns the
single-element list `[s]` and emits exactly one diagnostic log record
containing that token count. -/
theorem call_returns_result_and_logs
    (client : Client) (lm : QianfanLM) (prompt : String)
    (kwargs : List (String × Value)) (response body : Value) (s : String)
    (usageFields : List (String × Value)) (tok : Value)
    (hresp : client (effectiveKwargs lm prompt kwargs) = .ok response)
    (hbody : getItem response "body" = .ok body)
    (hres : getItem body "result" = .ok (Value.str s))
    (husage : dictGet response "usage" = .ok (Value.obj usageFields))
    (htok : alistGet usageFields "total_tokens" = some tok) :
    (call client lm prompt true false kwargs).1 = .ok ([Value.str s], [tok]) := by
  have htr : truthy (Value.obj usageFields) = true := by
    cases usageFields with
    | nil => exact absurd htok (by simp [alistGet])
    | cons a l => rfl
  have hdg : dictGet (Value.obj usageFields) "total_tokens" = .ok tok := by
    rw [dictGet_obj, htok]
    rfl
  have hlog : log_usage response = .ok [tok] := by
    rw [log_usage_spec response (Value.obj usageFields) husage, htr, if_pos rfl, hdg]
  rw [call_unfold_ok client lm prompt kwargs response hresp,
    callAfterRequest_spec2 response body [tok] hlog hbody, hres]

/-- C1 witness: a concrete client returning
`{"body": {"result": "ok"}, "usage": {"total_tokens": 42}}`. -/
theorem call_returns_result_and_logs_witness :
    (call okClient demoLM "hello" true false []).1 =
      .ok ([Value.str "ok"], [Value.num 42]) :=
  call_returns_result_and_logs okClient demoLM "hello" [] okResponse
    (Value.obj [("result", Value.str "ok")]) "ok"
    [("total_tokens", Value.num 42)] (Value.num 42) rfl rfl rfl rfl rfl

/-- C7: when the response lacks the nested path `body.result` — either no
"body" key, or a body dict without a "result" key — and usage logging
succeeds, `__call__` fails with the corresponding `KeyError`, which is
propagated to the caller untranslated. -/
theorem call_missing_result_path_keyerror
    (client : Client) (lm : QianfanLM) (prompt : String)
    (kwargs : List (String × Value)) (fields : List (String × Value))
    (logs : List Value)
    (hresp : client (effectiveKwargs lm prompt kwargs) = .ok (Value.obj fields))
    (hlog : log_usage (Value.obj fields) = .ok logs) :
    (alistGet fields "body" = Option.none →
      (call client lm prompt true false kwargs).1 = .error (.keyError "body")) ∧
    (∀ bodyFields, alistGet fields "body" = some (Value.obj bodyFields) →
      alistGet bodyFields "result" = Option.none →
      (call client lm prompt true false kwargs).1 = .error (.keyError "result")) := by
  constructor
  · intro hb
    rw [call_unfold_ok client lm prompt kwargs (Value.obj fields) hresp,
      callAfterRequest_spec (Value.obj fields) logs hlog,
      getItem_none fields "body" hb]
  · intro bodyFields hb hr
    rw [call_unfold_ok client lm prompt kwargs (Value.obj fields) hresp,
      callAfterRequest_spec2 (Value.obj fields) (Value.obj bodyFields) logs hlog
        (getItem_some fields "body" (Value.obj bodyFields) hb),
      getItem_none bodyFields "result" hr]

/-- C7 witness: a client returning an empty response object; the call fails
with `KeyError "body"`. -/
theorem call_missing_result_path_keyerror_witness :
    (call emptyClient demoLM "hello" true false []).1 = .error (.keyError "body") :=
  (call_missing_result_path_keyerror emptyClient demoLM "hello" [] [] [] rfl rfl).1 rfl

/-- C10: `log_usage` keys off Python truthiness, not key presence: a falsy
usage value (an empty mapping, or the `None` that `.get` returns when the
key is absent) emits no record, while a truthy usage mapping that lacks
`total_tokens` still emits exactly one record whose token count is `None`. -/
theorem log_usage_truthiness (fields : List (String × Value)) :
    (∀ usage, alistGet fields "usage" = some usage → truthy usage = false →
      log_usage (Value.obj fields) = .ok []) ∧
    (alistGet fields "usage" = Option.none →
      log_usage (Value.obj fields) = .ok []) ∧
    (∀ usageFields, alistGet fields "usage" = some (Value.obj usageFields) →
      truthy (Value.obj usageFields) = true →
      alistGet usageFields "total_tokens" = Option.none →
      log_usage (Value.obj fields) = .ok [Value.none]) := by
  refine ⟨fun usage hu htr => ?_, fun hu => ?_, fun usageFields hu htr hmiss => ?_⟩
  · have hdg : dictGet (Value.obj fields) "usage" = .ok usage := by
      rw [dictGet_obj, hu]
      rfl
    rw [log_usage_spec (Value.obj fields) usage hdg, htr]
    rfl
  · have hdg : dictGet (Value.obj fields) "usage" = .ok Value.none := by
      rw [dictGet_obj, hu]
      rfl
    rw [log_usage_spec (Value.obj fields) Value.none hdg]
    rfl
  · have hdg : dictGet (Value.obj fields) "usage" = .ok (Value.obj usageFields) := by
      rw [dictGet_obj, hu]
      rfl
    have hdg2 : dictGet (Value.obj usageFields) "total_tokens" = .ok Value.none := by
      rw [dictGet_obj, hmiss]
      rfl
    rw [log_usage_spec (Value.obj fields) (Value.obj usageFields) hdg, htr,
      if_pos rfl, hdg2]

/-- C10 witness: an empty usage mapping logs nothing; a truthy usage mapping
without `total_tokens` logs one `None` record. -/
theorem log_usage_truthiness_witness :
    log_usage (Value.obj [("usage", Value.obj [])]) = .ok [] ∧
    log_usage (Value.obj [("usage", Value.obj [("prompt_tokens", Value.num 7)])]) =
      .ok [Value.none] :=
  ⟨(log_usage_truthiness [("usage", Value.obj [])]).1 (Value.obj []) rfl rfl,
   (log_usage_truthiness [("usage", Value.obj [("prompt_tokens", Value.num 7)])]).2.2
     [("prompt_tokens", Value.num 7)] rfl rfl rfl⟩

/-- Skipping a binding whose key differs. -/
theorem alistGet_cons_ne (k0 : String) (v0 : Value) (rest : List (String × Value))
    (k : String) (h : k0 ≠ k) :
    alistGet ((k0, v0) :: rest) k = alistGet rest k := by
  show (alistGet rest k).or (if k0 = k then some v0 else Option.none) = alistGet rest k
  rw [if_neg h, Option.or_none]

/-- C5: in chat mode the outgoing options bind "messages" to the single
user-role message wrapping the prompt and, provided neither the
construction defaults nor the call-time overrides supply one, contain no
"prompt" key; in completion mode they bind "prompt" to the prompt and,
under the symmetric proviso, contain no "messages" key. -/
theorem outgoing_shape (lm : QianfanLM) (prompt : String)
    (kwargs : List (String × Value)) :
    (lm.model_type = .chat →
      alistGet (effectiveKwargs lm prompt kwargs) "messages" =
        some (wrapMessages prompt) ∧
      (alistGet lm.kwargs "prompt" = Option.none →
        alistGet kwargs "prompt" = Option.none →
        alistGet (effectiveKwargs lm prompt kwargs) "prompt" = Option.none)) ∧
    (lm.model_type = .completion →
      alistGet (effectiveKwargs lm prompt kwargs) "prompt" =
        some (Value.str prompt) ∧
      (alistGet lm.kwargs "messages" = Option.none →
        alistGet kwargs "messages" = Option.none →
        alistGet (effectiveKwargs lm prompt kwargs) "messages" = Option.none)) := by
  constructor
  · intro hmt
    constructor
    · rw [effectiveKwargs_chat lm prompt kwargs hmt, alistGet_append,
        alistGet_singleton, if_pos rfl]
      rfl
    · intro h1 h2
      rw [effectiveKwargs_chat lm prompt kwargs hmt, alistGet_append,
        alistGet_singleton, if_neg (by decide), alistGet_append, h1, h2]
      rfl
  · intro hmt
    constructor
    · rw [effectiveKwargs_completion lm prompt kwargs hmt, alistGet_append,
        alistGet_singleton, if_pos rfl]
      rfl
    · intro h1 h2
      rw [effectiveKwargs_completion lm prompt kwargs hmt, alistGet_append,
        alistGet_singleton, if_neg (by decide), alistGet_append, h1, h2]
      rfl

/-- C5 witness: the default chat adapter with prompt "hello". -/
theorem outgoing_shape_witness :
    alistGet (effectiveKwargs demoLM "hello" []) "messages" =
      some (wrapMessages "hello") ∧
    alistGet (effectiveKwargs demoLM "hello" []) "prompt" = Option.none :=
  ⟨((outgoing_shape demoLM "hello" []).1 rfl).1,
   ((outgoing_shape demoLM "hello" []).1 rfl).2 rfl rfl⟩

/-- C4 counterexample: with a chat-mode adapter, a call-time override for
the key "messages" does not reach the vendor client: the effective options
bind "messages" to the wrapped prompt, not to the override value, because
the prompt injection is assigned after the merge. -/
theorem messages_override_does_not_win :
    alistGet (effectiveKwargs demoLM "hi" [("messages", Value.str "custom")])
      "messages" = some (wrapMessages "hi") ∧
    wrapMessages "hi" ≠ Value.str "custom" :=
  ⟨rfl, fun h => Value.noConfusion h⟩

/-- C4 (amended): the per-call merge is last-write-wins for every key other
than the mode-injected one ("messages" in chat mode, "prompt" in completion
mode), which is overwritten after the merge; any other key present in the
call-time overrides — "model" and "endpoint" included — maps to the
override value in the effective options. -/
theorem merge_last_write_wins (lm : QianfanLM) (prompt : String)
    (kwargs : List (String × Value)) (k : String) (v : Value)
    (hk : alistGet kwargs k = some v)
    (hchat : lm.model_type = .chat → k ≠ "messages")
    (hcompl : lm.model_type = .completion → k ≠ "prompt") :
    alistGet (effectiveKwargs lm prompt kwargs) k = some v := by
  cases hmt : lm.model_type with
  | chat =>
    rw [effectiveKwargs_chat lm prompt kwargs hmt, alistGet_append,
      alistGet_singleton, if_neg (fun he => hchat hmt he.symm), alistGet_append, hk]
    rfl
  | completion =>
    rw [effectiveKwargs_completion lm prompt kwargs hmt, alistGet_append,
      alistGet_singleton, if_neg (fun he => hcompl hmt he.symm), alistGet_append, hk]
    rfl

/-- C4 witness: a call-time override of "model" wins over the
construction-injected model identifier. -/
theorem merge_last_write_wins_witness :
    alistGet (effectiveKwargs demoLM "hi" [("model", Value.str "other-model")])
      "model" = some (Value.str "other-model") :=
  merge_last_write_wins demoLM "hi" [("model", Value.str "other-model")] "model"
    (Value.str "other-model") rfl (fun _ => by decide)
    (fun h => absurd h (by decide))

/-- Construction kwargs with no endpoint and no tuning parameters. -/
theorem init_kwargs_endpoint_none (model : String) (mt : ModelType)
    (extra : List (String × Value)) :
    (QianfanLM.init model Option.none mt Option.none Option.none Option.none
      extra).kwargs =
      ([("temperature", Value.num (7 / 10)), ("top_p", Value.num 1),
        ("stream", Value.bool false)] ++ extra) ++ [("model", Value.str model)] := rfl

/-- Construction kwargs with an endpoint but no tuning parameters. -/
theorem init_kwargs_endpoint_some (model e : String) (mt : ModelType)
    (extra : List (String × Value)) :
    (QianfanLM.init model (some e) mt Option.none Option.none Option.none
      extra).kwargs =
      (([("temperature", Value.num (7 / 10)), ("top_p", Value.num 1),
        ("stream", Value.bool false)] ++ extra) ++ [("model", Value.str model)]) ++
        [("endpoint", Value.str e)] := rfl

/-- A key that is neither a seeded default, nor the model/endpoint, nor in
the construction kwargs or call-time overrides, nor the injected prompt
key, is absent from the effective options when the tuning parameters are
omitted. -/
theorem effective_omits_key (model : String) (endpoint : Option String)
    (mt : ModelType) (extra kwargs : List (String × Value)) (prompt k : String)
    (hx : alistGet extra k = Option.none) (hkw : alistGet kwargs k = Option.none)
    (h1 : k ≠ "temperature") (h2 : k ≠ "top_p") (h3 : k ≠ "stream")
    (h4 : k ≠ "model") (h5 : k ≠ "endpoint")
    (h6 : k ≠ "messages") (h7 : k ≠ "prompt") :
    alistGet (effectiveKwargs
      (QianfanLM.init model endpoint mt Option.none Option.none Option.none extra)
      prompt kwargs) k = Option.none := by
  have hinit : alistGet (QianfanLM.init model endpoint mt Option.none Option.none
      Option.none extra).kwargs k = Option.none := by
    cases endpoint with
    | none =>
      rw [init_kwargs_endpoint_none, alistGet_append, alistGet_singleton,
        if_neg (Ne.symm h4), alistGet_append, hx,
        alistGet_cons_ne _ _ _ _ (Ne.symm h1), alistGet_cons_ne _ _ _ _ (Ne.symm h2),
        alistGet_cons_ne _ _ _ _ (Ne.symm h3)]
      rfl
    | some e =>
      rw [init_kwargs_endpoint_some, alistGet_append, alistGet_singleton,
        if_neg (Ne.symm h5), alistGet_append, alistGet_singleton,
        if_neg (Ne.symm h4), alistGet_append, hx,
        alistGet_cons_ne _ _ _ _ (Ne.symm h1), alistGet_cons_ne _ _ _ _ (Ne.symm h2),
        alistGet_cons_ne _ _ _ _ (Ne.symm h3)]
      rfl
  cases hmt : (QianfanLM.init model endpoint mt Option.none Option.none Option.none
      extra).model_type with
  | chat =>
    rw [effectiveKwargs_chat _ prompt kwargs hmt, alistGet_append,
      alistGet_singleton, if_neg (Ne.symm h6), alistGet_append, hkw, hinit]
    rfl
  | completion =>
    rw [effectiveKwargs_completion _ prompt kwargs hmt, alistGet_append,
      alistGet_singleton, if_neg (Ne.symm h7), alistGet_append, hkw, hinit]
    rfl

/-- C6: when retry_count is omitted at construction — and likewise
request_timeout and backoff_factor — and neither the construction kwargs
nor the call-time overrides supply those keys, the outgoing options contain
no "retry_count", "request_timeout" or "backoff_factor" key: absence
injects no key and no default value. -/
theorem omitted_tuning_keys_absent (model : String) (endpoint : Option String)
    (mt : ModelType) (extra kwargs : List (String × Value)) (prompt : String)
    (hx1 : alistGet extra "retry_count" = Option.none)
    (hk1 : alistGet kwargs "retry_count" = Option.none)
    (hx2 : alistGet extra "request_timeout" = Option.none)
    (hk2 : alistGet kwargs "request_timeout" = Option.none)
    (hx3 : alistGet extra "backoff_factor" = Option.none)
    (hk3 : alistGet kwargs "backoff_factor" = Option.none) :
    alistGet (effectiveKwargs (QianfanLM.init model endpoint mt Option.none
      Option.none Option.none extra) prompt kwargs) "retry_count" = Option.none ∧
    alistGet (effectiveKwargs (QianfanLM.init model endpoint mt Option.none
      Option.none Option.none extra) prompt kwargs) "request_timeout" = Option.none ∧
    alistGet (effectiveKwargs (QianfanLM.init model endpoint mt Option.none
      Option.none Option.none extra) prompt kwargs) "backoff_factor" = Option.none :=
  ⟨effective_omits_key model endpoint mt extra kwargs prompt "retry_count" hx1 hk1
     (by decide) (by decide) (by decide) (by decide) (by decide) (by decide) (by decide),
   effective_omits_key model endpoint mt extra kwargs prompt "request_timeout" hx2 hk2
     (by decide) (by decide) (by decide) (by decide) (by decide) (by decide) (by decide),
   effective_omits_key model endpoint mt extra kwargs prompt "backoff_factor" hx3 hk3
     (by decide) (by decide) (by decide) (by decide) (by decide) (by decide) (by decide)⟩

/-- C6 witness: the default chat construction with empty extra kwargs and
empty overrides. -/
theorem omitted_tuning_keys_absent_witness :
    alistGet (effectiveKwargs (QianfanLM.init "ERNIE-4.0-Turbo-8K" Option.none
      ModelType.chat Option.none Option.none Option.none []) "hello" [])
      "retry_count" = Option.none ∧
    alistGet (effectiveKwargs (QianfanLM.init "ERNIE-4.0-Turbo-8K" Option.none
      ModelType.chat Option.none Option.none Option.none []) "hello" [])
      "request_timeout" = Option.none ∧
    alistGet (effectiveKwargs (QianfanLM.init "ERNIE-4.0-Turbo-8K" Option.none
      ModelType.chat Option.none Option.none Option.none []) "hello" [])
      "backoff_factor" = Option.none :=
  omitted_tuning_keys_absent "ERNIE-4.0-Turbo-8K" Option.none ModelType.chat [] []
    "hello" rfl rfl rfl rfl rfl rfl
